import Mathlib

/-!
# Verification of the air-quality platform core against its specification

Shallow embedding of the Python backend (`backend/app/`) of the
air-quality telemetry pipeline: geohash primitives, store-adapter write and
query logic, the anomaly evaluator, the publisher retry loop, the worker
message state machine, and the query-endpoint validation and time-bound
synthesis.  Numeric values are modelled as rationals (`ℚ`), UTC instants as
integers (`ℤ`, epoch seconds — the code normalises every naive timestamp to
UTC before use, so plain instants suffice), and effectful steps (store
writes, broker publishes) are parametrised by explicit success/failure
inputs.
-/

namespace AirQuality

/-! ## Geohash primitives (db_client.py, python-geohash)

The canonical base-32 geohash over alphabet `0123456789bcdefghjkmnpqrstuvwxyz`:
bits alternate longitude/latitude starting with longitude, refining the
intervals [-180,180] and [-90,90]; a point on the midline goes to the upper
half (floor semantics of the reference implementation). -/

def GEOHASH_BASE32_CHARS : String := "0123456789bcdefghjkmnpqrstuvwxyz"

/-- The base-32 digit for a 5-bit value. -/
def base32Char (n : ℕ) : Char := GEOHASH_BASE32_CHARS.toList.getD n '0'

/-- The index of a base-32 geohash character in the alphabet. -/
def base32Index (c : Char) : ℕ :=
  (GEOHASH_BASE32_CHARS.toList.indexOf c)

/-- The interleaved bit stream of a geohash of `n` bits for point
`(lat, lon)`.  `isLon` says whether the next bit refines longitude. -/
def geohashBits (lat lon : ℚ) :
    ℕ → ℚ → ℚ → ℚ → ℚ → Bool → List Bool
  | 0, _, _, _, _, _ => []
  | n + 1, latLo, latHi, lonLo, lonHi, isLon =>
    if isLon then
      let mid := (lonLo + lonHi) / 2
      if mid ≤ lon then
        true :: geohashBits lat lon n latLo latHi mid lonHi false
      else
        false :: geohashBits lat lon n latLo latHi lonLo mid false
    else
      let mid := (latLo + latHi) / 2
      if mid ≤ lat then
        true :: geohashBits lat lon n mid latHi lonLo lonHi true
      else
        false :: geohashBits lat lon n latLo mid lonLo lonHi true

/-- Big-endian value of a bit list. -/
def bitsToNat (bs : List Bool) : ℕ :=
  bs.foldl (fun acc b => 2 * acc + (if b then 1 else 0)) 0

/-- `geohash.encode(lat, lon, precision)`: the geohash string of the given
precision (= output length). -/
def encode (lat lon : ℚ) (precision : ℕ) : String :=
  let bits := geohashBits lat lon (5 * precision) (-90) 90 (-180) 180 true
  String.mk ((List.range precision).map
    (fun i => base32Char (bitsToNat ((bits.drop (5 * i)).take 5))))

/-- The 5 bits of one geohash character, big-endian. -/
def charBits (c : Char) : List Bool :=
  let n := base32Index c
  [n / 16 % 2 = 1, n / 8 % 2 = 1, n / 4 % 2 = 1, n / 2 % 2 = 1, n % 2 = 1]

/-- Cell bounds of a geohash: south, north, west, east. -/
structure GhBox where
  s : ℚ
  n : ℚ
  w : ℚ
  e : ℚ
deriving DecidableEq

/-- Interval refinement along a bit stream (inverse of `geohashBits`). -/
def refineBits : List Bool → ℚ → ℚ → ℚ → ℚ → Bool → GhBox
  | [], latLo, latHi, lonLo, lonHi, _ =>
    { s := latLo, n := latHi, w := lonLo, e := lonHi }
  | b :: bs, latLo, latHi, lonLo, lonHi, isLon =>
    if isLon then
      let mid := (lonLo + lonHi) / 2
      if b then refineBits bs latLo latHi mid lonHi false
      else refineBits bs latLo latHi lonLo mid false
    else
      let mid := (latLo + latHi) / 2
      if b then refineBits bs mid latHi lonLo lonHi true
      else refineBits bs latLo mid lonLo lonHi true

/-- `geohash.bbox(h)`: the cell of a geohash string. -/
def ghBBox (h : String) : GhBox :=
  refineBits (h.toList.flatMap charBits) (-90) 90 (-180) 180 true

/-! ## `calculate_geohashes_for_bbox` (db_client.py)

Recursive refinement: seed from center plus the four corners encoded at
`min(precision, 4)`, prune cells not intersecting the target (closed-interval
comparison), emit cells at the target precision, subdivide shorter cells into
their 32 children.  The Python `checked_hashes` memoisation only avoids
re-work and does not change the produced set, so the embedding unions the
per-seed results directly; per-cell decode errors (treated as
non-intersecting in the source) cannot arise here because every candidate
string is over the geohash alphabet. -/

/-- Closed-interval intersection test between a cell and the target box,
exactly as in `check_hash`. -/
def cellIntersects (box : GhBox) (minLat maxLat minLon maxLon : ℚ) : Bool :=
  decide (box.s ≤ maxLat) && decide (box.n ≥ minLat) &&
  decide (box.w ≤ maxLon) && decide (box.e ≥ minLon)

/-- `check_hash`: prune a non-intersecting cell, emit an intersecting cell of
the target precision, otherwise expand into the 32 child strings and recurse.
`fuel` bounds the recursion depth; the top-level call supplies enough fuel
(`precision`) that the `fuel = 0` branch is never taken on cells shorter than
the target precision. -/
def checkHash (minLat maxLat minLon maxLon : ℚ) (precision : ℕ) :
    ℕ → String → Finset String
  | fuel, h =>
    if cellIntersects (ghBBox h) minLat maxLat minLon maxLon then
      if h.length = precision then {h}
      else if h.length < precision then
        match fuel with
        | 0 => ∅
        | fuel + 1 =>
          GEOHASH_BASE32_CHARS.toList.foldr
            (fun c acc =>
              checkHash minLat maxLat minLon maxLon precision fuel (h.push c)
                ∪ acc)
            ∅
      else ∅
    else ∅

/-- Is `(lat, lon)` an encodable coordinate (the guard used on the five seed
points and the center fallback)? -/
def coordValid (lat lon : ℚ) : Bool :=
  decide (-90 ≤ lat) && decide (lat ≤ 90) &&
  decide (-180 ≤ lon) && decide (lon ≤ 180)

/-- `calculate_geohashes_for_bbox(min_lat, max_lat, min_lon, max_lon,
precision)`: the set of geohash strings of the given precision the function
returns for the target box. -/
def calculate_geohashes_for_bbox
    (minLat maxLat minLon maxLon : ℚ) (precision : ℕ) : Finset String :=
  let points_to_encode : List (ℚ × ℚ) :=
    [((minLat + maxLat) / 2, (minLon + maxLon) / 2),
     (minLat, minLon), (minLat, maxLon), (maxLat, minLon), (maxLat, maxLon)]
  let start_precision := if 1 < precision then min precision 4 else 1
  let initial_hashes : List String :=
    points_to_encode.filterMap
      (fun p => if coordValid p.1 p.2 then
          some (encode p.1 p.2 start_precision) else none)
  if initial_hashes.isEmpty then
    -- fallback: the single center hash at full precision, when encodable
    let centerLat := (minLat + maxLat) / 2
    let centerLon := (minLon + maxLon) / 2
    if coordValid centerLat centerLon then {encode centerLat centerLon precision}
    else ∅
  else
    initial_hashes.foldr
      (fun h acc =>
        checkHash minLat maxLat minLon maxLon precision precision h ∪ acc)
      ∅

/-! ## Configuration (config.py) -/

/-- Modelled from the spec: the `Settings` class in `config.py` omits the
`geohash_precision_storage` field that `db_client.write_air_quality_data` and
`main.py` read; the spec lists the configuration key
`GEOHASH_PRECISION_STORAGE` ("storage tag length", `storage_precision`
default 7), so the model supplies the field with that default. -/
def GEOHASH_PRECISION_STORAGE : ℕ := 7

/-- The configuration fields the claims touch, with the defaults from
`config.py` (thresholds) and the spec-modelled storage precision. -/
structure Settings where
  threshold_pm25_hazardous : ℚ
  threshold_pm10_hazardous : ℚ
  threshold_no2_hazardous : ℚ
  geohash_precision_storage : ℕ

/-- `get_settings()` with every recognised option left at its default. -/
def settings : Settings :=
  { threshold_pm25_hazardous := 250
    threshold_pm10_hazardous := 420
    threshold_no2_hazardous := 200
    geohash_precision_storage := GEOHASH_PRECISION_STORAGE }

/-! ## Data model (models.py) -/

/-- `IngestRequest`: a sensor payload; pollutants optional, no timestamp. -/
structure IngestRequest where
  latitude : ℚ
  longitude : ℚ
  pm25 : Option ℚ
  pm10 : Option ℚ
  no2 : Option ℚ
  so2 : Option ℚ
  o3 : Option ℚ
deriving DecidableEq

/-- `AirQualityReading`: a processed reading; the timestamp is a UTC
instant. -/
structure AirQualityReading where
  latitude : ℚ
  longitude : ℚ
  timestamp : ℤ
  pm25 : Option ℚ
  pm10 : Option ℚ
  no2 : Option ℚ
  so2 : Option ℚ
  o3 : Option ℚ
deriving DecidableEq

/-- `Anomaly`: a detected anomaly event. -/
structure Anomaly where
  id : String
  latitude : ℚ
  longitude : ℚ
  timestamp : ℤ
  parameter : String
  value : ℚ
  description : String
deriving DecidableEq

/-- `PollutionDensity`: the response of the density query. -/
structure PollutionDensity where
  region_name : String
  average_pm25 : Option ℚ
  average_pm10 : Option ℚ
  average_no2 : Option ℚ
  average_so2 : Option ℚ
  average_o3 : Option ℚ
  data_points_count : ℕ
deriving DecidableEq

/-! ## Fixed-point number rendering

Python renders the numbers appearing in anomaly descriptions with `:.1f` and
the density region label with `:.4f`.  The model renders a rational to `k`
decimal places (round half up; the claims never hinge on tie behaviour). -/

/-- Left-pad a digit string with zeros to length `k`. -/
def padZeros (s : String) (k : ℕ) : String :=
  String.mk (List.replicate (k - s.length) '0') ++ s

/-- Fixed-point rendering of a rational with `k` decimal places. -/
def fmtFixed (k : ℕ) (q : ℚ) : String :=
  let m : ℤ := Int.floor (q * (10 : ℚ) ^ k + 1 / 2)
  let sign := if m < 0 then "-" else ""
  let a := m.natAbs
  sign ++ toString (a / 10 ^ k) ++ "." ++ padZeros (toString (a % 10 ^ k)) k

/-! ## Anomaly evaluator (anomaly_detection.py) -/

/-- `check_thresholds(reading)`: collect, in source order `pm25`, `pm10`,
`no2`, each pollutant whose non-null value strictly exceeds its configured
hazardous threshold, and return an `Anomaly` for the first one (or `none`).
The fresh `uuid.uuid4()` suffix of the generated id is passed in explicitly
(`uuid`), making the nondeterministic id generator a parameter. -/
def check_thresholds (uuid : String) (reading : AirQualityReading) :
    Option Anomaly :=
  let anomalies_found : List (String × ℚ × String) :=
    (match reading.pm25 with
     | some v =>
       if settings.threshold_pm25_hazardous < v then
         [("pm25", v, "PM2.5 value " ++ fmtFixed 1 v ++
           " exceeds hazardous threshold (" ++
           fmtFixed 1 settings.threshold_pm25_hazardous ++ ")")]
       else []
     | none => []) ++
    (match reading.pm10 with
     | some v =>
       if settings.threshold_pm10_hazardous < v then
         [("pm10", v, "PM10 value " ++ fmtFixed 1 v ++
           " exceeds hazardous threshold (" ++
           fmtFixed 1 settings.threshold_pm10_hazardous ++ ")")]
       else []
     | none => []) ++
    (match reading.no2 with
     | some v =>
       if settings.threshold_no2_hazardous < v then
         [("no2", v, "NO2 value " ++ fmtFixed 1 v ++
           " exceeds hazardous threshold (" ++
           fmtFixed 1 settings.threshold_no2_hazardous ++ ")")]
       else []
     | none => [])
  match anomalies_found with
  | [] => none
  | (p, v, d) :: _ =>
    some { id := "anomaly_" ++ uuid
           latitude := reading.latitude
           longitude := reading.longitude
           timestamp := reading.timestamp
           parameter := p
           value := v
           description := d }

/-! ## Store write (db_client.write_air_quality_data)

A written point carries the measurement name, tags, fields and timestamp the
Python client assembles; the store round-trip itself is abstracted by the
`dbOk` success input.  Timestamp normalisation (naive → UTC) is the identity
here because timestamps are already instants.  `latitude`/`longitude` are
required model fields, so the guard `reading.latitude is not None and
reading.longitude is not None` always passes and `geohash.encode` (total in
the model) always produces the tag. -/

/-- The line-protocol point assembled by the write path. -/
structure Point where
  measurement : String
  tags : List (String × String)
  fields : List (String × ℚ)
  time : ℤ
deriving DecidableEq

/-- Result of `write_air_quality_data`: a point was written (returns `True`),
the write was skipped because no pollutant field is non-null (also returns
`True`), or the store write failed (returns `False`). -/
inductive WriteOutcome where
  | written (p : Point)
  | skipped
  | failed
deriving DecidableEq

/-- `write_air_quality_data(reading)`: tag the point with the stringified
coordinates and the storage-precision geohash (the tag is added only when
the computed string is truthy, i.e. non-empty), keep only non-null pollutant
fields, skip when none remain, and otherwise write the point (success
`dbOk`). -/
def write_air_quality_data (reading : AirQualityReading) (dbOk : Bool) :
    WriteOutcome :=
  let calculated_geohash :=
    encode reading.latitude reading.longitude settings.geohash_precision_storage
  let non_null_fields : List (String × ℚ) :=
    [("pm25", reading.pm25), ("pm10", reading.pm10), ("no2", reading.no2),
     ("so2", reading.so2), ("o3", reading.o3)].filterMap
      (fun kv => kv.2.map (fun v => (kv.1, v)))
  if non_null_fields.isEmpty then .skipped
  else if dbOk then
    .written
      { measurement := "air_quality"
        tags :=
          [("latitude", toString reading.latitude),
           ("longitude", toString reading.longitude)] ++
          (if calculated_geohash = "" then [] else
            [("geohash", calculated_geohash)])
        fields := non_null_fields
        time := reading.timestamp }
  else .failed

/-! ## Worker (worker.py process_message)

The per-message pipeline for a message that decoded and validated into an
`IngestRequest` (malformed messages are dropped with an ack/nack before this
pipeline and never reach the store).  The worker stamps `now` as the
timestamp, writes the reading, runs `check_thresholds`, writes a detected
anomaly (failure logged, never a nack), and acks.  On a store-write failure
the worker re-raises, but the catch-all handler at the end of
`process_message` swallows that exception, so the processing scope still
exits cleanly and the message is acked (anomaly detection is never
reached).  This worker variant performs no broadcast publish of any kind,
so the `broadcasts` component records every message handed to the broadcast
exchange during processing — always none. -/

/-- The observable effects of processing one raw-queue message. -/
structure ProcessResult where
  wrotePoint : Option Point
  wroteAnomaly : Option Anomaly
  broadcasts : List Anomaly
  acked : Bool
deriving DecidableEq

/-- The reading the worker constructs: the payload's coordinates and
pollutants with `timestamp = datetime.now(timezone.utc)`. -/
def mkReading (m : IngestRequest) (now : ℤ) : AirQualityReading :=
  { latitude := m.latitude, longitude := m.longitude, timestamp := now
    pm25 := m.pm25, pm10 := m.pm10, no2 := m.no2, so2 := m.so2, o3 := m.o3 }

/-- `process_message` on a validated payload.  `now` is the worker clock,
`uuid` the fresh anomaly-id suffix, `dbOk`/`anomalyDbOk` the outcomes of the
two store writes. -/
def process_message (m : IngestRequest) (now : ℤ) (uuid : String)
    (dbOk anomalyDbOk : Bool) : ProcessResult :=
  let reading := mkReading m now
  match write_air_quality_data reading dbOk with
  | .failed =>
    -- the raised write error is swallowed by the catch-all handler, so the
    -- scope exits cleanly and acks; detection is skipped
    { wrotePoint := none, wroteAnomaly := none, broadcasts := [], acked := true }
  | .skipped =>
    let anomaly := check_thresholds uuid reading
    { wrotePoint := none
      wroteAnomaly := anomaly.bind (fun a => if anomalyDbOk then some a else none)
      broadcasts := []
      acked := true }
  | .written p =>
    let anomaly := check_thresholds uuid reading
    { wrotePoint := some p
      wroteAnomaly := anomaly.bind (fun a => if anomalyDbOk then some a else none)
      broadcasts := []
      acked := true }

/-! ## Publisher retry loop (queue_client.publish_message_async) and the
ingest endpoint (main.py) -/

/-- How one publish attempt ends.  `published`: the publish succeeds and the
function returns `True`.  `skipRetry`: the attempt fails on one of the
`continue` paths — channel-creation timeout, channel-creation error, or
queue-declare failure — which jump straight to the next loop iteration,
skipping the backoff sleep at the bottom of the loop body.  `fallThrough`:
the attempt fails reaching the end of the loop body — pool-acquire failure,
publish error, or an unexpected exception — where the backoff sleep runs
(when attempts remain). -/
inductive AttemptOutcome where
  | published
  | skipRetry
  | fallThrough
deriving DecidableEq

/-- What a publish call did: whether it succeeded, how many attempts were
made, and the backoff sleeps (seconds) actually taken between attempts. -/
structure PublishTrace where
  success : Bool
  attempts : ℕ
  sleeps : List ℚ
deriving DecidableEq

/-- The `for attempt in range(retries)` loop: `i` is the 0-based index of
the next attempt, the recursion argument the number of attempts left, and
`f i` how attempt `i` ends.  A `fallThrough` failure with attempts left
sleeps `0.5 * (attempt + 1)` before the retry; a `skipRetry` failure
retries immediately; after the last attempt no sleep runs on either
path. -/
def publishAttemptLoop (f : ℕ → AttemptOutcome) (i : ℕ) : ℕ → PublishTrace
  | 0 => { success := false, attempts := i, sleeps := [] }
  | 1 =>
    -- the last attempt: `attempt < retries - 1` fails, no backoff either way
    match f i with
    | .published => { success := true, attempts := i + 1, sleeps := [] }
    | _ => { success := false, attempts := i + 1, sleeps := [] }
  | r + 2 =>
    match f i with
    | .published => { success := true, attempts := i + 1, sleeps := [] }
    | .skipRetry => publishAttemptLoop f (i + 1) (r + 1)
    | .fallThrough =>
      let t := publishAttemptLoop f (i + 1) (r + 1)
      { success := t.success, attempts := t.attempts
        sleeps := ((1 : ℚ) / 2 * (i + 1)) :: t.sleeps }

/-- `publish_message_async(message)`: 3 attempts against the pool; an
uninitialised pool reports failure immediately. -/
def publish_message_async (poolInitialized : Bool)
    (f : ℕ → AttemptOutcome) : PublishTrace :=
  if poolInitialized then publishAttemptLoop f 0 3
  else { success := false, attempts := 0, sleeps := [] }

/-- `ingest_air_quality_data`: publish the payload and answer
`202 accepted`, or `503 service unavailable` when the publish reports
failure. -/
def ingest_air_quality_data (poolInitialized : Bool)
    (f : ℕ → AttemptOutcome) : ℕ :=
  if (publish_message_async poolInitialized f).success then 202 else 503

/-! ## Anomalies list: time-bound synthesis (main.py list_anomalies,
db_client.query_anomalies_from_db) -/

/-- `timedelta(hours=24)` in epoch seconds. -/
def twentyFourHours : ℤ := 86400

/-- The Flux `range(...)` filter `query_anomalies_from_db` builds from its
optional bounds. -/
inductive AnomalyRange where
  | lastDay                 -- range(start: -24h)
  | between (s e : ℤ)       -- range(start: s, stop: e)
  | fromStart (s : ℤ)       -- range(start: s)
  | upTo (e : ℤ)            -- range(start: 0, stop: e)
deriving DecidableEq

/-- `query_anomalies_from_db(start_time, end_time)`: which range filter the
query uses. -/
def query_anomalies_from_db_range :
    Option ℤ → Option ℤ → AnomalyRange
  | none, none => .lastDay
  | some s, some e => .between s e
  | some s, none => .fromStart s
  | none, some e => .upTo e

/-- The bound synthesis in `list_anomalies`: only `start_time` set → default
`end_time = now`; only `end_time` set → default
`start_time = end_time - 24h`; otherwise pass the bounds unchanged. -/
def list_anomalies_bounds (now : ℤ) :
    Option ℤ → Option ℤ → Option ℤ × Option ℤ
  | some s, none => (some s, some now)
  | none, some e => (some (e - twentyFourHours), some e)
  | s, e => (s, e)

/-- `list_anomalies`: synthesise the missing bound and hand the result to
`query_anomalies_from_db`. -/
def list_anomalies (now : ℤ) (start_time end_time : Option ℤ) :
    AnomalyRange :=
  let b := list_anomalies_bounds now start_time end_time
  query_anomalies_from_db_range b.1 b.2

/-- The closed time interval an `AnomalyRange` covers, evaluated at query
time `now` (relative ranges are anchored at `now`; `range(start: 0, ...)`
starts at the Unix epoch). -/
def rangeInterval (now : ℤ) : AnomalyRange → ℤ × ℤ
  | .lastDay => (now - twentyFourHours, now)
  | .between s e => (s, e)
  | .fromStart s => (s, now)
  | .upTo e => (0, e)

/-! ## Density query (db_client.query_density_in_bbox)

The Influx round-trip of `query_raw_points_in_bbox` is abstracted by passing
the fetched readings directly (`raw_points`). -/

/-- `calculate_avg(values)`: mean of a list, `None` when empty. -/
def calculate_avg (values : List ℚ) : Option ℚ :=
  if values.isEmpty then none
  else some (values.sum / (values.length : ℚ))

/-- `query_density_in_bbox`: per-pollutant means over the non-null values of
the fetched readings and the total fetched count; `None` when nothing was
fetched. -/
def query_density_in_bbox (minLat maxLat minLon maxLon : ℚ)
    (raw_points : List AirQualityReading) : Option PollutionDensity :=
  if raw_points.isEmpty then none
  else
    some
      { region_name :=
          "BBox:[" ++ fmtFixed 4 minLat ++ "," ++ fmtFixed 4 minLon ++
          " to " ++ fmtFixed 4 maxLat ++ "," ++ fmtFixed 4 maxLon ++ "]"
        average_pm25 := calculate_avg (raw_points.filterMap (fun p => p.pm25))
        average_pm10 := calculate_avg (raw_points.filterMap (fun p => p.pm10))
        average_no2 := calculate_avg (raw_points.filterMap (fun p => p.no2))
        average_so2 := calculate_avg (raw_points.filterMap (fun p => p.so2))
        average_o3 := calculate_avg (raw_points.filterMap (fun p => p.o3))
        data_points_count := raw_points.length }

/-- The representative count the claim (and the spec sentence it comes from)
describes instead: the maximum per-pollutant count of non-null
contributions. -/
def spec_max_pollutant_count (raw_points : List AirQualityReading) : ℕ :=
  [(raw_points.filterMap (fun p => p.pm25)).length,
   (raw_points.filterMap (fun p => p.pm10)).length,
   (raw_points.filterMap (fun p => p.no2)).length,
   (raw_points.filterMap (fun p => p.so2)).length,
   (raw_points.filterMap (fun p => p.o3)).length].foldr max 0

/-! ## Latest-cell radius fallback (db_client.query_latest_location_data)

When the exact-cell lookup finds nothing, the function collects candidate
points within 50 km (haversine) of the query point from a bounding-box
pre-filter and synthesises an estimate.  The Influx fetch and the distance
filter are abstracted by passing the surviving candidates (`points`)
directly; each candidate always carries a timestamp (Influx records do). -/

/-- One candidate dictionary of the radius estimate. -/
structure RadiusPoint where
  latitude : ℚ
  longitude : ℚ
  timestamp : ℤ
  pm25 : Option ℚ
  pm10 : Option ℚ
  no2 : Option ℚ
  so2 : Option ℚ
  o3 : Option ℚ
deriving DecidableEq

/-- The `avg` helper of the fallback: drop nulls, mean of the rest, `None`
when nothing remains (`safe_float` is the identity on model rationals). -/
def radius_avg (values : List (Option ℚ)) : Option ℚ :=
  let vals := values.filterMap (fun v => v)
  if vals.isEmpty then none
  else some (vals.sum / (vals.length : ℚ))

/-- The synthetic reading of the 50 km fallback: query-point coordinates,
most recent candidate timestamp, per-pollutant means of the candidates.
`None` when no candidate exists (the function then returns null). -/
def radius_estimate (lat lon : ℚ) (points : List RadiusPoint) :
    Option AirQualityReading :=
  match points with
  | [] => none
  | q :: rest =>
    some
      { latitude := lat
        longitude := lon
        timestamp := (rest.map (fun p => p.timestamp)).foldl max q.timestamp
        pm25 := radius_avg (points.map (fun p => p.pm25))
        pm10 := radius_avg (points.map (fun p => p.pm10))
        no2 := radius_avg (points.map (fun p => p.no2))
        so2 := radius_avg (points.map (fun p => p.so2))
        o3 := radius_avg (points.map (fun p => p.o3)) }

/-! ## Query-endpoint precision validation (main.py)

FastAPI `Query(..., ge, le)` accepts a supplied value exactly when it lies
within the declared bounds.  `get_air_quality_for_location` declares
`geohash_precision` with `ge=2, le=6`; `get_location_history` declares it
with `ge=2, le=7`. -/

/-- The `Query(ge, le)` acceptance test. -/
def queryIntAccepted (ge le v : ℤ) : Bool :=
  decide (ge ≤ v) && decide (v ≤ le)

/-- Validation of `geohash_precision` on `/air_quality/location`. -/
def location_precision_accepted (p : ℤ) : Bool := queryIntAccepted 2 6 p

/-- Validation of `geohash_precision` on
`/air_quality/history/coordinates/{parameter}`. -/
def history_precision_accepted (p : ℤ) : Bool := queryIntAccepted 2 7 p

/-! ## Helper lemmas -/

/-- A geohash has exactly `precision` characters. -/
theorem encode_length (lat lon : ℚ) (precision : ℕ) :
    (encode lat lon precision).length = precision := by
  simp [encode, String.length]

/-- `calculate_avg` written with an explicit emptiness test. -/
theorem calculate_avg_eq (values : List ℚ) :
    calculate_avg values =
      if values = [] then none
      else some (values.sum / (values.length : ℚ)) := by
  cases values <;> simp [calculate_avg]

/-- `radius_avg` over mapped candidates is `calculate_avg`-style over the
directly filtered values. -/
theorem radius_avg_eq (f : RadiusPoint → Option ℚ) (points : List RadiusPoint) :
    radius_avg (points.map f) =
      if points.filterMap f = [] then none
      else some ((points.filterMap f).sum / ((points.filterMap f).length : ℚ)) := by
  have hmap : (points.map f).filterMap (fun v => v) = points.filterMap f := by
    rw [List.filterMap_map]
    rfl
  rw [radius_avg, hmap]
  rcases h : points.filterMap f with _ | _ <;> simp [h]

/-! ## Claim theorems -/

/-- Sample written reading for the C2 witness. -/
def c2Reading : AirQualityReading :=
  { latitude := 0, longitude := 0, timestamp := 0, pm25 := some 12.5,
    pm10 := none, no2 := none, so2 := none, o3 := none }

/-- The point `write_air_quality_data` assembles for `c2Reading`. -/
def c2Point : Point :=
  { measurement := "air_quality"
    tags := [("latitude", "0"), ("longitude", "0"), ("geohash", "s000000")]
    fields := [("pm25", 12.5)], time := 0 }

/-- C2: every point `write_air_quality_data` writes carries a `geohash` tag
equal to `Encode(lat, lon, P_s)` for the configured storage precision
`P_s` (spec-modelled default 7), and that tag has length `P_s`. -/
theorem C2_written_point_carries_storage_geohash_tag
    (r : AirQualityReading) (dbOk : Bool) (p : Point)
    (h : write_air_quality_data r dbOk = .written p) :
    ("geohash",
      encode r.latitude r.longitude settings.geohash_precision_storage) ∈ p.tags ∧
    (encode r.latitude r.longitude settings.geohash_precision_storage).length
      = settings.geohash_precision_storage := by
  refine ⟨?_, encode_length r.latitude r.longitude settings.geohash_precision_storage⟩
  have hne :
      encode r.latitude r.longitude settings.geohash_precision_storage ≠ "" := by
    intro he
    have hl := encode_length r.latitude r.longitude settings.geohash_precision_storage
    rw [he] at hl
    simp [settings, GEOHASH_PRECISION_STORAGE] at hl
  by_cases hf :
      (List.filterMap (fun kv => Option.map (fun v => (kv.1, v)) kv.2)
        [("pm25", r.pm25), ("pm10", r.pm10), ("no2", r.no2), ("so2", r.so2),
         ("o3", r.o3)]).isEmpty = true
  · revert h
    simp [write_air_quality_data, hf]
  · by_cases hd : dbOk = true
    · revert h
      simp only [write_air_quality_data, hf, hd, if_false, if_true,
        Bool.false_eq_true, WriteOutcome.written.injEq]
      rintro rfl
      simp [hne]
    · revert h
      simp [write_air_quality_data, hf, hd]

/-- C2 witness: a concrete reading, its written point, and the geohash-tag
invariant at that point. -/
theorem C2_witness :
    write_air_quality_data c2Reading true = .written c2Point ∧
    ("geohash",
      encode c2Reading.latitude c2Reading.longitude
        settings.geohash_precision_storage) ∈ c2Point.tags ∧
    (encode c2Reading.latitude c2Reading.longitude
        settings.geohash_precision_storage).length
      = settings.geohash_precision_storage := by
  have hw : write_air_quality_data c2Reading true = .written c2Point := by
    with_unfolding_all decide
  have h := C2_written_point_carries_storage_geohash_tag c2Reading true c2Point hw
  exact ⟨hw, h.1, h.2⟩

/-- Sample all-null payload for the C7 witness. -/
def c7Msg : IngestRequest :=
  { latitude := 0, longitude := 0, pm25 := none, pm10 := none, no2 := none,
    so2 := none, o3 := none }

/-- C7: a reading whose pollutant fields are all null is a successful no-op:
`write_air_quality_data` returns the skip flag without writing, and the
worker acks the message with no anomaly written. -/
theorem C7_all_null_reading_skips_and_acks
    (m : IngestRequest) (now : ℤ) (uuid : String) (dbOk anomalyDbOk : Bool)
    (h25 : m.pm25 = none) (h10 : m.pm10 = none) (hno2 : m.no2 = none)
    (hso2 : m.so2 = none) (ho3 : m.o3 = none) :
    write_air_quality_data (mkReading m now) dbOk = .skipped ∧
    process_message m now uuid dbOk anomalyDbOk =
      { wrotePoint := none, wroteAnomaly := none, broadcasts := [],
        acked := true } := by
  have hw : write_air_quality_data (mkReading m now) dbOk = .skipped := by
    simp [write_air_quality_data, mkReading, h25, h10, hno2, hso2, ho3]
  have ha : check_thresholds uuid (mkReading m now) = none := by
    simp [check_thresholds, mkReading, h25, h10, hno2]
  refine ⟨hw, ?_⟩
  simp [process_message, hw, ha]

/-- C7 witness: the all-null payload at the origin is skipped and acked. -/
theorem C7_witness :
    write_air_quality_data (mkReading c7Msg 0) true = .skipped ∧
    process_message c7Msg 0 "u" true true =
      { wrotePoint := none, wroteAnomaly := none, broadcasts := [],
        acked := true } :=
  C7_all_null_reading_skips_and_acks c7Msg 0 "u" true true rfl rfl rfl rfl rfl

/-- The raw payload whose processing decides C1: a PM2.5 reading over the
hazardous threshold. -/
def c1Msg : IngestRequest :=
  { latitude := 36.88, longitude := 30.70, pm25 := some 300, pm10 := none,
    no2 := none, so2 := none, o3 := none }

set_option maxRecDepth 4000 in
/-- C1 (violated by the code): processing a message whose reading yields a
persisted anomaly hands nothing to the broadcast exchange — the worker
writes the anomaly and acks with `broadcasts = []`, while the claim requires
the anomaly's JSON to be published to the fanout exchange before the ack. -/
theorem C1_worker_persists_anomaly_but_broadcasts_nothing :
    (process_message c1Msg 0 "u" true true).wroteAnomaly =
      some { id := "anomaly_u", latitude := 36.88, longitude := 30.70,
             timestamp := 0, parameter := "pm25", value := 300,
             description :=
               "PM2.5 value 300.0 exceeds hazardous threshold (250.0)" } ∧
    (process_message c1Msg 0 "u" true true).broadcasts = [] ∧
    (process_message c1Msg 0 "u" true true).acked = true := by
  with_unfolding_all decide

/-- C3: `check_thresholds` returns at most one anomaly (it is
`Option`-valued) and returns one exactly when some pollutant among `pm25`,
`pm10`, `no2` is non-null and strictly over its threshold; the result
describes the first such parameter in source order, carries that
measurement, inherits the reading's timestamp and coordinates, and has the
exact description string "<PARAM> value <V> exceeds hazardous threshold
(<T>)". -/
theorem C3_check_thresholds_first_exceeding (uuid : String)
    (r : AirQualityReading) :
    (check_thresholds uuid r = none ↔
      ¬ ((∃ v, r.pm25 = some v ∧ settings.threshold_pm25_hazardous < v) ∨
         (∃ v, r.pm10 = some v ∧ settings.threshold_pm10_hazardous < v) ∨
         (∃ v, r.no2 = some v ∧ settings.threshold_no2_hazardous < v))) ∧
    (∀ v, r.pm25 = some v → settings.threshold_pm25_hazardous < v →
      check_thresholds uuid r = some
        { id := "anomaly_" ++ uuid, latitude := r.latitude,
          longitude := r.longitude, timestamp := r.timestamp,
          parameter := "pm25", value := v,
          description := "PM2.5 value " ++ fmtFixed 1 v ++
            " exceeds hazardous threshold (" ++
            fmtFixed 1 settings.threshold_pm25_hazardous ++ ")" }) ∧
    (∀ v, (∀ w, r.pm25 = some w → ¬ settings.threshold_pm25_hazardous < w) →
      r.pm10 = some v → settings.threshold_pm10_hazardous < v →
      check_thresholds uuid r = some
        { id := "anomaly_" ++ uuid, latitude := r.latitude,
          longitude := r.longitude, timestamp := r.timestamp,
          parameter := "pm10", value := v,
          description := "PM10 value " ++ fmtFixed 1 v ++
            " exceeds hazardous threshold (" ++
            fmtFixed 1 settings.threshold_pm10_hazardous ++ ")" }) ∧
    (∀ v, (∀ w, r.pm25 = some w → ¬ settings.threshold_pm25_hazardous < w) →
      (∀ w, r.pm10 = some w → ¬ settings.threshold_pm10_hazardous < w) →
      r.no2 = some v → settings.threshold_no2_hazardous < v →
      check_thresholds uuid r = some
        { id := "anomaly_" ++ uuid, latitude := r.latitude,
          longitude := r.longitude, timestamp := r.timestamp,
          parameter := "no2", value := v,
          description := "NO2 value " ++ fmtFixed 1 v ++
            " exceeds hazardous threshold (" ++
            fmtFixed 1 settings.threshold_no2_hazardous ++ ")" }) := by
  refine ⟨?_, ?_, ?_, ?_⟩
  · rcases h25 : r.pm25 with _ | v25 <;> rcases h10 : r.pm10 with _ | v10 <;>
      rcases hn2 : r.no2 with _ | v2 <;>
      simp [check_thresholds, h25, h10, hn2] <;>
      split_ifs <;> simp_all
  · intro v h25 hgt
    simp [check_thresholds, h25, hgt]
  · intro v hn25 h10v hgt
    rcases h25 : r.pm25 with _ | w
    · simp [check_thresholds, h25, h10v, hgt]
    · have hw := hn25 w h25
      simp [check_thresholds, h25, h10v, hgt, hw]
  · intro v hn25 hn10 hn2v hgt
    rcases h25 : r.pm25 with _ | w <;> rcases h10 : r.pm10 with _ | x
    · simp [check_thresholds, h25, h10, hn2v, hgt]
    · have hx := hn10 x h10
      simp [check_thresholds, h25, h10, hn2v, hgt, hx]
    · have hw := hn25 w h25
      simp [check_thresholds, h25, h10, hn2v, hgt, hw]
    · have hw := hn25 w h25
      have hx := hn10 x h10
      simp [check_thresholds, h25, h10, hn2v, hgt, hw, hx]

/-- Sample over-threshold reading for the C3 witness. -/
def c3Reading : AirQualityReading :=
  { latitude := 36.88, longitude := 30.70, timestamp := 5, pm25 := some 300,
    pm10 := none, no2 := none, so2 := none, o3 := none }

set_option maxRecDepth 4000 in
/-- C3 witness: a PM2.5 reading of 300 produces exactly the claimed anomaly
with the rendered description. -/
theorem C3_witness :
    settings.threshold_pm25_hazardous < (300 : ℚ) ∧
    check_thresholds "u" c3Reading = some
      { id := "anomaly_u", latitude := 36.88, longitude := 30.70,
        timestamp := 5, parameter := "pm25", value := 300,
        description :=
          "PM2.5 value 300.0 exceeds hazardous threshold (250.0)" } := by
  have hlt : settings.threshold_pm25_hazardous < (300 : ℚ) := by
    with_unfolding_all decide
  have h := (C3_check_thresholds_first_exceeding "u" c3Reading).2.1 300 rfl hlt
  refine ⟨hlt, ?_⟩
  rw [h]
  with_unfolding_all decide

/-- C4 (violated by the code): the recursive cover seeds only from the
center and the four corners, so for the bbox
`[-80, 80] × [-170, 170]` at precision 1 the interior point `(0, -100)` lies
in the bbox while its geohash is not in the returned set — the cover law
fails although the function's own docstring promises coverage. -/
theorem C4_cover_misses_interior_point :
    ((-80 : ℚ) ≤ 0 ∧ (0 : ℚ) ≤ 80 ∧ (-170 : ℚ) ≤ -100 ∧ (-100 : ℚ) ≤ 170) ∧
    encode 0 (-100) 1 ∉ calculate_geohashes_for_bbox (-80) 80 (-170) 170 1 := by
  with_unfolding_all decide

/-- Attempt outcomes for the C5 counterexample: the first attempt fails on
the channel-creation `continue` path, the second publishes. -/
def c5Outcomes : ℕ → AttemptOutcome :=
  fun i => if i = 1 then .published else .skipRetry

/-- C5 counterexample: an attempt that fails on a `continue` path
(channel-creation timeout/error, queue-declare failure) retries with no
backoff sleep at all — here the first attempt fails and the second
publishes, yet the recorded sleeps are `[]` where the claim demands the
`0.5 s × 1` backoff between the failed attempt and the next. -/
theorem C5_counterexample_no_backoff_on_skip_paths :
    publish_message_async true c5Outcomes =
      { success := true, attempts := 2, sleeps := [] } ∧
    ([] : List ℚ) ≠ [1 / 2] := by
  with_unfolding_all decide

/-- C5 (amended): with an initialised pool the publisher makes at most 3
attempts, stops at the first success, reports failure exactly when all 3
attempts fail, and the ingest endpoint answers 202 exactly on publish
success and 503 exactly on reported failure; the `0.5 s × attempt` backoff
sleep runs after a failed non-final attempt only when the failure reaches
the end of the loop body (pool-acquire failure, publish error, unexpected
error), while the channel-creation and queue-declare failure paths retry
immediately with no backoff. -/
theorem C5_publish_retry_and_ingest_status (f : ℕ → AttemptOutcome) :
    ((publish_message_async true f).success = true ↔
      (f 0 = .published ∨ f 1 = .published ∨ f 2 = .published)) ∧
    (ingest_air_quality_data true f =
      if f 0 = .published ∨ f 1 = .published ∨ f 2 = .published then 202
      else 503) ∧
    (f 0 = .published → publish_message_async true f =
      { success := true, attempts := 1, sleeps := [] }) ∧
    (f 0 ≠ .published → f 1 = .published →
      (publish_message_async true f).success = true ∧
      (publish_message_async true f).attempts = 2) ∧
    (f 0 ≠ .published → f 1 ≠ .published → f 2 = .published →
      (publish_message_async true f).success = true ∧
      (publish_message_async true f).attempts = 3) ∧
    (f 0 ≠ .published → f 1 ≠ .published → f 2 ≠ .published →
      (publish_message_async true f).success = false ∧
      (publish_message_async true f).attempts = 3) ∧
    ((publish_message_async true f).sleeps =
      (List.range (min ((publish_message_async true f).attempts - 1) 2)).filterMap
        (fun j => if f j = .fallThrough
          then some ((1 : ℚ) / 2 * ((j + 1 : ℕ) : ℚ)) else none)) := by
  cases hf0 : f 0 <;> cases hf1 : f 1 <;> cases hf2 : f 2 <;>
    simp [publish_message_async, ingest_air_quality_data, publishAttemptLoop,
      hf0, hf1, hf2, List.range_succ]

/-- Attempt outcomes for the C5 witness: the first attempt fails on the
fall-through path (where the backoff runs), the second publishes. -/
def c5WitnessOutcomes : ℕ → AttemptOutcome :=
  fun i => if i = 1 then .published else .fallThrough

/-- C5 witness: a fall-through failure then a successful publish — success
after 2 attempts with exactly the one 0.5 s backoff. -/
theorem C5_witness :
    (publish_message_async true c5WitnessOutcomes).success = true ∧
    (publish_message_async true c5WitnessOutcomes).attempts = 2 ∧
    (publish_message_async true c5WitnessOutcomes).sleeps = [1 / 2] := by
  have h := C5_publish_retry_and_ingest_status c5WitnessOutcomes
  have h4 := h.2.2.2.1 (by decide) (by decide)
  have hs := h.2.2.2.2.2.2
  rw [h4.2] at hs
  refine ⟨h4.1, h4.2, ?_⟩
  rw [hs]
  with_unfolding_all decide

/-- Fetched reading with only `pm25` for the C6 counterexample. -/
def c6PointA : AirQualityReading :=
  { latitude := 0, longitude := 0, timestamp := 0, pm25 := some 1,
    pm10 := none, no2 := none, so2 := none, o3 := none }

/-- Fetched reading with only `pm10` for the C6 counterexample. -/
def c6PointB : AirQualityReading :=
  { latitude := 0, longitude := 0, timestamp := 0, pm25 := none,
    pm10 := some 2, no2 := none, so2 := none, o3 := none }

/-- C6 counterexample: for two fetched readings contributing to different
pollutants, the code reports `data_points_count = 2` (the total number of
fetched readings) while the claim's maximum per-pollutant contribution
count is 1. -/
theorem C6_counterexample_count_total_not_max :
    ((query_density_in_bbox 0 1 0 1 [c6PointA, c6PointB]).map
      (fun d => d.data_points_count)) = some 2 ∧
    spec_max_pollutant_count [c6PointA, c6PointB] = 1 ∧ (2 : ℕ) ≠ 1 := by
  with_unfolding_all decide

/-- C6 (amended): the density result exists exactly when readings were
fetched, each pollutant average is the arithmetic mean of the non-null
values among the fetched readings (null when there are no contributions),
and `data_points_count` is the total number of fetched readings. -/
theorem C6_density_means_and_total_count (minLat maxLat minLon maxLon : ℚ)
    (raw_points : List AirQualityReading) :
    (query_density_in_bbox minLat maxLat minLon maxLon raw_points = none ↔
      raw_points = []) ∧
    (∀ d, query_density_in_bbox minLat maxLat minLon maxLon raw_points
        = some d →
      d.average_pm25 =
        (if raw_points.filterMap (fun p => p.pm25) = [] then none
         else some ((raw_points.filterMap (fun p => p.pm25)).sum /
           ((raw_points.filterMap (fun p => p.pm25)).length : ℚ))) ∧
      d.average_pm10 =
        (if raw_points.filterMap (fun p => p.pm10) = [] then none
         else some ((raw_points.filterMap (fun p => p.pm10)).sum /
           ((raw_points.filterMap (fun p => p.pm10)).length : ℚ))) ∧
      d.average_no2 =
        (if raw_points.filterMap (fun p => p.no2) = [] then none
         else some ((raw_points.filterMap (fun p => p.no2)).sum /
           ((raw_points.filterMap (fun p => p.no2)).length : ℚ))) ∧
      d.average_so2 =
        (if raw_points.filterMap (fun p => p.so2) = [] then none
         else some ((raw_points.filterMap (fun p => p.so2)).sum /
           ((raw_points.filterMap (fun p => p.so2)).length : ℚ))) ∧
      d.average_o3 =
        (if raw_points.filterMap (fun p => p.o3) = [] then none
         else some ((raw_points.filterMap (fun p => p.o3)).sum /
           ((raw_points.filterMap (fun p => p.o3)).length : ℚ))) ∧
      d.data_points_count = raw_points.length) := by
  cases raw_points with
  | nil => simp [query_density_in_bbox]
  | cons a l =>
    constructor
    · simp [query_density_in_bbox]
    · intro d h
      revert h
      simp only [query_density_in_bbox, List.isEmpty_cons, if_false,
        Bool.false_eq_true, Option.some.injEq]
      rintro rfl
      simp [calculate_avg_eq]

/-- The density value produced for the two C6 sample readings. -/
def c6Density : PollutionDensity :=
  { region_name := "BBox:[0.0000,0.0000 to 1.0000,1.0000]"
    average_pm25 := some 1, average_pm10 := some 2, average_no2 := none,
    average_so2 := none, average_o3 := none, data_points_count := 2 }

/-- C6 witness: the two sample readings produce the expected density with
total count 2. -/
theorem C6_witness :
    query_density_in_bbox 0 1 0 1 [c6PointA, c6PointB] = some c6Density ∧
    c6Density.data_points_count = 2 := by
  have hq : query_density_in_bbox 0 1 0 1 [c6PointA, c6PointB]
      = some c6Density := by
    with_unfolding_all decide
  have h := (C6_density_means_and_total_count 0 1 0 1
    [c6PointA, c6PointB]).2 c6Density hq
  exact ⟨hq, h.2.2.2.2.2.trans rfl⟩

/-- C8: with both bounds unset the anomaly query covers the last 24 hours;
with only `start_time` set the end is synthesised as `now`; with only
`end_time` set the start is synthesised as `end_time - 24h`; the
synthesised bounds are exactly the ones handed to the anomaly query. -/
theorem C8_anomaly_time_bound_synthesis (now s e : ℤ) :
    rangeInterval now (list_anomalies now none none) =
      (now - twentyFourHours, now) ∧
    list_anomalies_bounds now (some s) none = (some s, some now) ∧
    list_anomalies now (some s) none = .between s now ∧
    list_anomalies_bounds now none (some e) =
      (some (e - twentyFourHours), some e) ∧
    list_anomalies now none (some e) = .between (e - twentyFourHours) e ∧
    list_anomalies now (some s) (some e) = .between s e :=
  ⟨rfl, rfl, rfl, rfl, rfl, rfl⟩

/-- C9 counterexample: precision 8 lies in the claimed accepted range
[2, 9] but both endpoints' validation rejects it (`le=6` on the location
endpoint, `le=7` on the history endpoint). -/
theorem C9_counterexample_precision_eight :
    ((2 : ℤ) ≤ 8 ∧ (8 : ℤ) ≤ 9) ∧
    location_precision_accepted 8 = false ∧
    history_precision_accepted 8 = false := by
  decide

/-- C9 (amended): the location endpoint accepts a supplied geohash
precision exactly when it lies in [2, 6], the history endpoint exactly when
it lies in [2, 7]; every other value is rejected by input validation. -/
theorem C9_precision_validation_ranges (p : ℤ) :
    (location_precision_accepted p = true ↔ 2 ≤ p ∧ p ≤ 6) ∧
    (history_precision_accepted p = true ↔ 2 ≤ p ∧ p ≤ 7) := by
  simp [location_precision_accepted, history_precision_accepted,
    queryIntAccepted]

/-- C10: whenever the 50 km fallback has at least one candidate it returns
a synthetic reading, and that reading carries the query point's coordinates
(not any candidate's) and, per pollutant, the arithmetic mean of the
candidates' non-null values (null when no candidate contributes). -/
theorem C10_radius_estimate_query_point_and_means (lat lon : ℚ)
    (points : List RadiusPoint) :
    (points ≠ [] → (radius_estimate lat lon points).isSome = true) ∧
    (∀ est, radius_estimate lat lon points = some est →
      est.latitude = lat ∧ est.longitude = lon ∧
      est.pm25 =
        (if points.filterMap (fun p => p.pm25) = [] then none
         else some ((points.filterMap (fun p => p.pm25)).sum /
           ((points.filterMap (fun p => p.pm25)).length : ℚ))) ∧
      est.pm10 =
        (if points.filterMap (fun p => p.pm10) = [] then none
         else some ((points.filterMap (fun p => p.pm10)).sum /
           ((points.filterMap (fun p => p.pm10)).length : ℚ))) ∧
      est.no2 =
        (if points.filterMap (fun p => p.no2) = [] then none
         else some ((points.filterMap (fun p => p.no2)).sum /
           ((points.filterMap (fun p => p.no2)).length : ℚ))) ∧
      est.so2 =
        (if points.filterMap (fun p => p.so2) = [] then none
         else some ((points.filterMap (fun p => p.so2)).sum /
           ((points.filterMap (fun p => p.so2)).length : ℚ))) ∧
      est.o3 =
        (if points.filterMap (fun p => p.o3) = [] then none
         else some ((points.filterMap (fun p => p.o3)).sum /
           ((points.filterMap (fun p => p.o3)).length : ℚ)))) := by
  cases points with
  | nil => simp [radius_estimate]
  | cons q rest =>
    constructor
    · intro _
      simp [radius_estimate]
    · intro est h
      revert h
      simp only [radius_estimate, Option.some.injEq]
      rintro rfl
      exact ⟨rfl, rfl, radius_avg_eq _ (q :: rest), radius_avg_eq _ (q :: rest),
        radius_avg_eq _ (q :: rest), radius_avg_eq _ (q :: rest),
        radius_avg_eq _ (q :: rest)⟩

/-- Candidate list for the C10 witness. -/
def c10Points : List RadiusPoint :=
  [{ latitude := 1, longitude := 2, timestamp := 3, pm25 := some 10,
     pm10 := none, no2 := some 30, so2 := none, o3 := none },
   { latitude := 4, longitude := 5, timestamp := 6, pm25 := some 20,
     pm10 := none, no2 := none, so2 := none, o3 := none }]

/-- The synthetic reading of the C10 witness. -/
def c10Est : AirQualityReading :=
  { latitude := 50, longitude := 60, timestamp := 6, pm25 := some 15,
    pm10 := none, no2 := some 30, so2 := none, o3 := none }

/-- C10 witness: two candidates near the query point (50, 60) yield the
query-point coordinates and the candidate means. -/
theorem C10_witness :
    radius_estimate 50 60 c10Points = some c10Est ∧
    c10Est.latitude = 50 ∧ c10Est.longitude = 60 ∧ c10Est.pm25 = some 15 := by
  have hq : radius_estimate 50 60 c10Points = some c10Est := by
    with_unfolding_all decide
  have h := (C10_radius_estimate_query_point_and_means 50 60 c10Points).2
    c10Est hq
  refine ⟨hq, h.1, h.2.1, h.2.2.1.trans ?_⟩
  with_unfolding_all decide

end AirQuality
